import Mathlib

/-!
Verification development for the AAFR dual-strategy trading repository.

This file gives a shallow embedding, in Lean 4, of the core numerical and
decision logic of the repository:

* the cumulative-volume-delta (CVD) accumulator    (aafr/cvd_module.py)
* the ATR helper                                   (aafr/utils.py)
* the ICC three-phase detector                     (aafr/icc_module.py)
* the trade-signal schema and its validation       (shared/signal_schema.py)
* the unified risk manager                         (shared/unified_risk_manager.py)
* the execution arbiter                            (shared/execution_arbiter.py)
* the risk engine used by the backtester           (aafr/risk_engine.py)
* the backtest simulator                           (aafr/backtester.py)

Modelling conventions:
* Python floats are modelled as exact rationals (`ℚ`); `round(x, n)` is
  modelled as round-half-to-even on rationals (`pyRound`), `int(x)` as
  truncation toward zero (`truncQ`).
* Python ints are `ℤ`, indices are `ℕ`.
* Python dictionaries keyed by strings become association lists.
* Out-of-range list indexing, which the source never exercises on the paths
  modelled here, is made total with `List.getD`.
* `datetime` values are modelled by integer epoch seconds; the wall clock
  (`datetime.now()`, `date.today()`) becomes an explicit parameter of each
  function that the source lets consult it.
* Python functions that raise `ValueError` are modelled with `Except`.
-/

/- Batteries marks the `Rat` field operations `@[irreducible]`, which blocks
`decide`/`rfl` evaluation of the concrete rational computations below; restore
the default reducibility for them in this file. -/
attribute [local semireducible] Rat.add Rat.mul Rat.sub Rat.inv Rat.ofScientific

/-- Truncation of a rational toward zero, as Python `int(x)` does on floats. -/
def truncQ (q : ℚ) : ℤ :=
  if q < 0 then -(⌊-q⌋) else ⌊q⌋

/-- Round a rational to the nearest integer, ties to even, as Python `round`. -/
def roundHalfEvenQ (q : ℚ) : ℤ :=
  let f := ⌊q⌋
  let frac := q - (f : ℚ)
  if frac < 1/2 then f
  else if 1/2 < frac then f + 1
  else if f % 2 = 0 then f else f + 1

/-- Python `round(q, n)`: round half-to-even at `n` decimal places. -/
def pyRound (q : ℚ) (n : ℕ) : ℚ :=
  (roundHalfEvenQ (q * (10 : ℚ) ^ n) : ℚ) / (10 : ℚ) ^ n

/-- Minimum of a list of rationals (`min(...)` in Python); 0 on the empty
list, which the modelled call sites never pass. -/
def listMinQ : List ℚ → ℚ
  | [] => 0
  | x :: xs => xs.foldl min x

/-- Maximum of a list of rationals (`max(...)` in Python); 0 on the empty
list, which the modelled call sites never pass. -/
def listMaxQ : List ℚ → ℚ
  | [] => 0
  | x :: xs => xs.foldl max x

/-- Decidable equality for `Except`, so that concrete validation outcomes
can be checked by `decide`. -/
instance {ε α : Type} [DecidableEq ε] [DecidableEq α] : DecidableEq (Except ε α) := fun x y =>
  match x, y with
  | .ok a, .ok b =>
    if h : a = b then isTrue (by rw [h])
    else isFalse (by intro hh; cases hh; exact h rfl)
  | .error a, .error b =>
    if h : a = b then isTrue (by rw [h])
    else isFalse (by intro hh; cases hh; exact h rfl)
  | .ok _, .error _ => isFalse (by intro hh; exact Except.noConfusion hh)
  | .error _, .ok _ => isFalse (by intro hh; exact Except.noConfusion hh)

/-- One OHLCV candle. Keys of the Python candle dictionaries become fields;
`open` is a Lean keyword, so the `open` key is the field `open_price` (the
name the Python sources themselves use for the local variable). -/
structure Candle where
  timestamp : ℤ := 0
  open_price : ℚ := 0
  high : ℚ := 0
  low : ℚ := 0
  close : ℚ := 0
  volume : ℤ := 0
deriving DecidableEq, Repr

instance : Inhabited Candle := ⟨{}⟩

/-! ### CVD module (aafr/cvd_module.py) -/

/-- Per-candle buy-minus-sell volume delta, from
`CVDCalculator._calculate_volume_deltas`: bullish candles are assumed 52%
buy volume, bearish 48%, doji 50%. -/
def volumeDelta (c : Candle) : ℤ :=
  if c.close > c.open_price then
    let buy := truncQ ((c.volume : ℚ) * (52/100))
    buy - (c.volume - buy)
  else if c.close < c.open_price then
    let buy := truncQ ((c.volume : ℚ) * (48/100))
    buy - (c.volume - buy)
  else
    let buy := truncQ ((c.volume : ℚ) * (50/100))
    buy - (c.volume - buy)

/-- Running cumulative sums of a list of deltas. -/
def cumSum : List ℤ → ℤ → List ℤ
  | [], _ => []
  | d :: ds, acc => (acc + d) :: cumSum ds (acc + d)

/-- `CVDCalculator.calculate_cvd`: the cumulative volume-delta series, one
value per candle. -/
def calcCVD (candles : List Candle) : List ℤ :=
  cumSum (candles.map volumeDelta) 0

/-- `CVDCalculator.analyze_indication_phase`: the CVD delta at the candle
must point the same way as the candle body (both comparisons are strict, a
doji and a zero delta both count as DOWN). -/
def analyzeIndicationPhase (candles : List Candle) (cvd : List ℤ) (i : ℕ) : Bool :=
  if i ≥ candles.length then false
  else
    let c := candles.getD i default
    let priceUp := c.close > c.open_price
    let cvdBefore := if i > 0 then cvd.getD (i - 1) 0 else 0
    let cvdDelta := cvd.getD i 0 - cvdBefore
    priceUp = (cvdDelta > 0)

/-- `CVDCalculator.analyze_correction_phase`: the CVD change across the
correction must shrink below 60% of the change over the five candles before
the correction start. -/
def analyzeCorrectionPhase (cvd : List ℤ) (s e : ℕ) : Bool :=
  if s ≥ e ∨ e ≥ cvd.length then false
  else
    let change := cvd.getD e 0 - cvd.getD s 0
    if s > 0 then
      let prevChange := |cvd.getD s 0 - cvd.getD (s - 5) 0|
      (|change| : ℚ) < (prevChange : ℚ) * (6/10)
    else true

/-- `CVDCalculator.analyze_continuation_phase`: same alignment check as the
indication phase, with the additional bound on the CVD list length. -/
def analyzeContinuationPhase (candles : List Candle) (cvd : List ℤ) (i : ℕ) : Bool :=
  if i ≥ candles.length ∨ i ≥ cvd.length then false
  else
    let c := candles.getD i default
    let priceUp := c.close > c.open_price
    let cvdBefore := if i > 0 then cvd.getD (i - 1) 0 else 0
    let cvdDelta := cvd.getD i 0 - cvdBefore
    priceUp = (cvdDelta > 0)

/-- `CVDCalculator.check_divergence`: price trend and CVD trend over the
last `lookback` entries disagree. Returns `true` when divergence is found. -/
def checkDivergence (candles : List Candle) (cvd : List ℤ) (lookback : ℕ := 5) : Bool :=
  if candles.length < lookback ∨ cvd.length < lookback then false
  else
    let recent := candles.drop (candles.length - lookback)
    let recentCvd := cvd.drop (cvd.length - lookback)
    let priceUp := (recent.getLastD default).close > (recent.headD default).close
    let cvdUp := recentCvd.getLastD 0 > recentCvd.headD 0
    priceUp ≠ cvdUp

/-! ### ATR (aafr/utils.py, calculate_atr) -/

/-- True ranges, one per index `1 ≤ i < len(closes)`, from `calculate_atr`. -/
def trueRanges (highs lows closes : List ℚ) : List ℚ :=
  ((List.range closes.length).drop 1).map fun i =>
    max (highs.getD i 0 - lows.getD i 0)
      (max |highs.getD i 0 - closes.getD (i - 1) 0| |lows.getD i 0 - closes.getD (i - 1) 0|)

/-- `calculate_atr`: simple moving average of the last `period` true ranges,
`none` when there is not enough data. -/
def calculateATR (highs lows closes : List ℚ) (period : ℕ := 14) : Option ℚ :=
  if highs.length < period + 1 ∨ lows.length < period + 1 ∨ closes.length < period + 1 then
    none
  else
    let trs := trueRanges highs lows closes
    if trs.length < period then none
    else some ((trs.drop (trs.length - period)).foldl (· + ·) 0 / (period : ℚ))

/-! ### ICC detector (aafr/icc_module.py) -/

/-- Phase direction, `'LONG'` / `'SHORT'` in the source. -/
inductive Dir
  | LONG
  | SHORT
deriving DecidableEq, Repr

/-- Indication phase record: the displacement candle index and its
direction (the source dictionary also repeats the candle, the ATR and the
CVD message, all derivable from the index). -/
structure Indication where
  idx : ℕ
  direction : Dir
deriving DecidableEq, Repr

/-- Correction phase record: start and end indices of the retracement. -/
structure Correction where
  start_idx : ℕ
  end_idx : ℕ
deriving DecidableEq, Repr

/-- Continuation phase record: the resumption candle index. -/
structure Continuation where
  idx : ℕ
deriving DecidableEq, Repr

/-- The structure returned by `ICCDetector.detect_icc_structure`. -/
structure ICCStructure where
  indication : Indication
  correction : Option Correction
  continuation : Option Continuation
  complete : Bool
deriving DecidableEq, Repr

/-- Candle body size `abs(close - open)`. -/
def bodySize (c : Candle) : ℚ :=
  |c.close - c.open_price|

/-- `ICCDetector._detect_indication`: scan the last `min(20, len)` candles
for the first one whose body is at least `min_atr_for_displacement × ATR`
and whose CVD delta aligns with it; candidates failing the CVD check are
skipped and the scan continues. -/
def detectIndication (candles : List Candle) (cvd : List ℤ)
    (minAtrForDisplacement : ℚ := 3/2) : Option Indication :=
  if candles.length < 15 then none
  else
    match calculateATR (candles.map (·.high)) (candles.map (·.low))
        (candles.map (·.close)) with
    | none => none
    | some atr =>
      let lookback := min 20 candles.length
      let idxs := (List.range candles.length).drop (candles.length - lookback)
      match idxs.find? (fun i =>
          decide (bodySize (candles.getD i default) ≥ atr * minAtrForDisplacement)
            && analyzeIndicationPhase candles cvd i) with
      | none => none
      | some i =>
        let c := candles.getD i default
        some ⟨i, if c.close > c.open_price then .LONG else .SHORT⟩

/-- The scanning loop of `ICCDetector._detect_correction`: starting at
index `i` with `fuel` candles left before the window ends, find the first
candle moving against the indication (`isOpp`, sets the start) and then the
first candle after it resuming the indication direction (`isRes`, the end). -/
def corrScan (isOpp isRes : ℕ → Bool) : ℕ → ℕ → Option ℕ → Option (ℕ × ℕ)
  | _, 0, _ => none
  | i, fuel + 1, none =>
    if isOpp i then corrScan isOpp isRes (i + 1) fuel (some i)
    else corrScan isOpp isRes (i + 1) fuel none
  | i, fuel + 1, some s =>
    if isRes i then some (s, i)
    else corrScan isOpp isRes (i + 1) fuel (some s)

/-- `ICCDetector._detect_correction`: scan up to 20 candles after the
indication for the retracement, then require the CVD neutralization check.
The Python guard `indication_idx >= len(candles) - 3` is written
`indIdx + 3 ≥ len` (equivalent over the integers). -/
def detectCorrection (candles : List Candle) (cvd : List ℤ) (indIdx : ℕ) :
    Option Correction :=
  if indIdx + 3 ≥ candles.length then none
  else
    let indC := candles.getD indIdx default
    let dir : Dir := if indC.close > indC.open_price then .LONG else .SHORT
    let isOpp : ℕ → Bool := fun i =>
      let c := candles.getD i default
      match dir with
      | .LONG => c.close < c.open_price
      | .SHORT => c.close > c.open_price
    let isRes : ℕ → Bool := fun i =>
      let c := candles.getD i default
      match dir with
      | .LONG => c.close > c.open_price
      | .SHORT => c.close < c.open_price
    let hi := min (indIdx + 20) candles.length
    match corrScan isOpp isRes (indIdx + 1) (hi - (indIdx + 1)) none with
    | none => none
    | some (s, e) =>
      if analyzeCorrectionPhase cvd s e then some ⟨s, e⟩ else none

/-- `ICCDetector._detect_continuation`: the continuation candle index is
set to `correction_end_idx` itself; the candle there must move in the
indication direction and pass the CVD alignment check. -/
def detectContinuation (candles : List Candle) (cvd : List ℤ)
    (correctionEndIdx indIdx : ℕ) : Option Continuation :=
  if correctionEndIdx ≥ candles.length then none
  else
    let continuationIdx := correctionEndIdx
    let c := candles.getD continuationIdx default
    let indC := candles.getD indIdx default
    let dir : Dir := if indC.close > indC.open_price then .LONG else .SHORT
    let candleDir : Dir := if c.close > c.open_price then .LONG else .SHORT
    if candleDir ≠ dir then none
    else if analyzeContinuationPhase candles cvd continuationIdx then
      some ⟨continuationIdx⟩
    else none

/-- `ICCDetector.detect_icc_structure`: needs at least 20 candles, computes
the CVD series for the whole history, then chains the three phase
detectors, returning a `complete` structure only when all are found (and a
non-complete one when `require_all_phases` is off). -/
def detectICCStructure (candles : List Candle) (requireAllPhases : Bool := true) :
    Option ICCStructure :=
  if candles.length < 20 then none
  else
    let cvd := calcCVD candles
    match detectIndication candles cvd with
    | none => none
    | some ind =>
      match detectCorrection candles cvd ind.idx with
      | none =>
        if requireAllPhases then none
        else some ⟨ind, none, none, false⟩
      | some corr =>
        match detectContinuation candles cvd corr.end_idx ind.idx with
        | none =>
          if requireAllPhases then none
          else some ⟨ind, some corr, none, false⟩
        | some cont => some ⟨ind, some corr, some cont, true⟩

/-- `ICCDetector.calculate_r_multiple`: project a reward distance from the
20-candle ATR and never report less than the preferred R (default 3.0). -/
def calculateRMultiple (entry stop : ℚ) (candles : List Candle)
    (preferredR : ℚ := 3) : ℚ :=
  let riskDistance := |entry - stop|
  if riskDistance = 0 then 0
  else
    let last20 := candles.drop (candles.length - 20)
    match calculateATR (last20.map (·.high)) (last20.map (·.low))
        (last20.map (·.close)) with
    | none => preferredR
    | some atr => max (atr * preferredR / riskDistance) preferredR

/-- `ICCDetector.calculate_trade_levels` and the identical
`Backtester._calculate_trade_levels`: entry is the continuation candle
close, the stop sits beyond the correction extreme with a 0.1%-of-entry
buffer, and the take profit is the R-multiple projection. The source
indexes the complete structure directly (it would raise `KeyError` on a
partial one); the partial case is mapped to zeros and is unreachable from
the modelled call sites. -/
def calculateTradeLevels (icc : ICCStructure) (candles : List Candle) :
    ℚ × ℚ × ℚ × ℚ :=
  match icc.continuation, icc.correction with
  | some cont, some corr =>
    let entry := (candles.getD cont.idx default).close
    let dir := icc.indication.direction
    let correctionCandles :=
      (candles.drop corr.start_idx).take (corr.end_idx + 1 - corr.start_idx)
    let stop :=
      match dir with
      | .LONG => listMinQ (correctionCandles.map (·.low)) - entry * (1/1000)
      | .SHORT => listMaxQ (correctionCandles.map (·.high)) + entry * (1/1000)
    let rMultiple := calculateRMultiple entry stop candles 3
    let riskDistance := |entry - stop|
    let rewardDistance := riskDistance * rMultiple
    let tp := match dir with
      | .LONG => entry + rewardDistance
      | .SHORT => entry - rewardDistance
    (entry, stop, tp, rMultiple)
  | _, _ => (0, 0, 0, 0)

/-- `ICCDetector.validate_full_setup`, reduced to its boolean verdict (the
source returns the violation list; the verdict is `violations == []`).
With a complete structure the only live checks are the presence checks and
the divergence check; the stored `cvd_valid` flag on a present continuation
is always `True` in the source. `cvd` is the CVD series computed by the
`detect_icc_structure` call that produced `icc`, which is the state the
detector's calculator holds at this call site. -/
def validateFullSetup (icc? : Option ICCStructure) (candles : List Candle)
    (cvd : List ℤ) : Bool :=
  match icc? with
  | none => false
  | some icc =>
    if icc.complete = false then false
    else
      (icc.correction.isSome) && (icc.continuation.isSome)
        && !(checkDivergence candles cvd)

/-! ### Trade-signal schema (shared/signal_schema.py) -/

/-- Signal direction, `"BUY"` / `"SELL"` in the source (the constructor
upper-cases and validates the string; directions are modelled as an
enumeration, so the `"Invalid direction"` branch has no inhabitant). -/
inductive TradeDirection
  | BUY
  | SELL
deriving DecidableEq, Repr

/-- The fields of `TradeSignal` that its validation and the downstream risk
and arbiter logic read. `signal_id` and the creation timestamp live on the
arbiter-level wrapper `ArbSignal` below, since the schema derives them from
the wall clock. -/
structure TradeSignal where
  strategy_id : String
  instrument : String
  direction : TradeDirection
  entry_price : ℚ
  stop_price : ℚ
  take_profit : List ℚ
  max_loss_usd : ℚ := 750
deriving DecidableEq, Repr

/-- The reasons `TradeSignal._validate` can raise `ValueError`. -/
inductive SignalError
  | invalidStrategy
  | invalidInstrument
  | entryNotPositive
  | stopNotPositive
  | buyStopNotBelowEntry
  | sellStopNotAboveEntry
  | noTakeProfit
  | buyTakeProfitNotAboveEntry
  | sellTakeProfitNotBelowEntry
deriving DecidableEq, Repr

/-- `TradeSignal._validate`: every check of the constructor, in source
order; the first failing check raises. -/
def signalValidate (s : TradeSignal) : Except SignalError Unit :=
  if ¬ (["AAFR", "AJR"].contains s.strategy_id) then .error .invalidStrategy
  else if ¬ (["NQ", "ES", "GC", "CL"].contains s.instrument) then .error .invalidInstrument
  else if s.entry_price ≤ 0 then .error .entryNotPositive
  else if s.stop_price ≤ 0 then .error .stopNotPositive
  else if s.direction = .BUY ∧ s.stop_price ≥ s.entry_price then .error .buyStopNotBelowEntry
  else if s.direction = .SELL ∧ s.stop_price ≤ s.entry_price then .error .sellStopNotAboveEntry
  else if s.take_profit = [] then .error .noTakeProfit
  else if s.direction = .BUY ∧ s.take_profit.any (· ≤ s.entry_price) then
    .error .buyTakeProfitNotAboveEntry
  else if s.direction = .SELL ∧ s.take_profit.any (· ≥ s.entry_price) then
    .error .sellTakeProfitNotBelowEntry
  else .ok ()

/-- `TradeSignal.calculate_stop_distance`. -/
def calculateStopDistance (s : TradeSignal) : ℚ :=
  |s.entry_price - s.stop_price|

/-- `TradeSignal.calculate_risk_reward`: one rounded R-multiple per take
profit, with a division guard that yields 0 when the stop distance is not
positive. -/
def calculateRiskReward (s : TradeSignal) : List ℚ :=
  let stopDistance := calculateStopDistance s
  s.take_profit.map fun tp =>
    pyRound (if stopDistance > 0 then |tp - s.entry_price| / stopDistance else 0) 2

/-! ### Unified risk manager (shared/unified_risk_manager.py) -/

/-- Per-instrument contract specifications from the configuration file. -/
structure InstrumentSpec where
  tick_size : ℚ
  tick_value : ℚ
deriving DecidableEq, Repr

/-- The configuration surface `UnifiedRiskManager` reads (the config file
itself is not in the repository, so its values are parameters). -/
structure ManagerConfig where
  account_size : ℚ
  max_risk_usd : ℚ
  daily_loss_limit : ℚ
  instruments : List (String × InstrumentSpec)
deriving Repr

/-- `UnifiedRiskManager.ALLOWED_INSTRUMENTS`. -/
def ALLOWED_INSTRUMENTS : List String := ["NQ", "ES", "GC", "CL"]

/-- Outcome of `UnifiedRiskManager.validate_instrument`. -/
inductive InstrumentCheck
  | ok
  | notAllowed
  | notConfigured
deriving DecidableEq, Repr

/-- `UnifiedRiskManager.validate_instrument`: whitelist first, then the
configuration table. -/
def validateInstrument (cfg : ManagerConfig) (instrument : String) : InstrumentCheck :=
  if ¬ (ALLOWED_INSTRUMENTS.contains instrument) then .notAllowed
  else if (cfg.instruments.lookup instrument).isNone then .notConfigured
  else .ok

/-- The details dictionary built by
`UnifiedRiskManager.calculate_position_size` on success (the `"error"`
dictionaries of the failure branches are modelled by `none` in the
result pair). -/
structure SizeDetails where
  stop_distance_points : ℚ
  stop_distance_ticks : ℚ
  dollar_per_contract : ℚ
  position_size : ℤ
  actual_risk_usd : ℚ
  actual_risk_pct : ℚ
  r_multiples : List ℚ
deriving DecidableEq, Repr

/-- `UnifiedRiskManager.calculate_position_size`: contracts =
`int(max_loss_usd / (stop_distance_ticks × tick_value))`, floored to a
minimum of 1, with the rounded reporting fields of the source's details
dictionary. -/
def calculatePositionSize (cfg : ManagerConfig) (s : TradeSignal) :
    ℤ × Option SizeDetails :=
  match cfg.instruments.lookup s.instrument with
  | none => (0, none)
  | some specs =>
    let stopDistancePoints := |s.entry_price - s.stop_price|
    let stopDistanceTicks := stopDistancePoints / specs.tick_size
    let dollarPerContract := stopDistanceTicks * specs.tick_value
    if dollarPerContract ≤ 0 then (0, none)
    else
      let positionSize := max 1 (truncQ (s.max_loss_usd / dollarPerContract))
      let actualRisk := (positionSize : ℚ) * dollarPerContract
      let actualRiskPct := actualRisk / cfg.account_size * 100
      (positionSize,
        some ⟨pyRound stopDistancePoints 4, pyRound stopDistanceTicks 2,
          pyRound dollarPerContract 2, positionSize, pyRound actualRisk 2,
          pyRound actualRiskPct 3, calculateRiskReward s⟩)

/-- The rejection reasons of `UnifiedRiskManager.validate_signal`, one per
`return False` site. -/
inductive ManagerReject
  | instrumentNotAllowed
  | instrumentNotConfigured
  | dailyLossLimit
  | invalidPositionSize
  | riskExceedsMax
  | rMultipleTooLow
deriving DecidableEq, Repr

/-- The `(is_valid, message, details)` result of
`UnifiedRiskManager.validate_signal`. -/
inductive SignalVerdict
  | rejected (reason : ManagerReject) (details : Option SizeDetails)
  | accepted (details : SizeDetails)
deriving DecidableEq, Repr

/-- `UnifiedRiskManager.validate_signal`: whitelist, daily loss limit,
position sizing, the 10%-tolerance risk cap, and last the R-multiple gate,
which compares `max(r_multiples)` against the hardcoded 1.5. The
`details?` of a positive position size is always `some`; the defensive
`none` arm mirrors `details.get('error', 'Unknown')`. -/
def validateSignal (cfg : ManagerConfig) (dailyLoss : ℚ) (s : TradeSignal) :
    SignalVerdict :=
  match validateInstrument cfg s.instrument with
  | .notAllowed => .rejected .instrumentNotAllowed none
  | .notConfigured => .rejected .instrumentNotConfigured none
  | .ok =>
    if dailyLoss ≥ cfg.daily_loss_limit then .rejected .dailyLossLimit none
    else
      match calculatePositionSize cfg s with
      | (positionSize, details?) =>
        if positionSize ≤ 0 then .rejected .invalidPositionSize none
        else
          match details? with
          | none => .rejected .invalidPositionSize none
          | some d =>
            if d.actual_risk_usd > cfg.max_risk_usd * (11/10) then
              .rejected .riskExceedsMax (some d)
            else if d.r_multiples ≠ [] ∧ listMaxQ d.r_multiples < 3/2 then
              .rejected .rMultipleTooLow (some d)
            else .accepted d

/-! ### Execution arbiter (shared/execution_arbiter.py) -/

/-- A `TradeSignal` together with the construction-time data the schema
derives from the wall clock: the generated `signal_id` (modelled as a
number) and the creation `timestamp` in seconds. -/
structure ArbSignal extends TradeSignal where
  signal_id : ℕ
  timestamp : ℚ
  notes : String := ""
deriving DecidableEq, Repr

/-- An entry of the arbiter's `open_positions` map. -/
structure OpenPosition where
  signal : ArbSignal
  position_size : ℤ
  opened_at : ℚ
  risk_details : SizeDetails
deriving DecidableEq, Repr

/-- The arbiter section of the configuration file, with the source's
defaults. -/
structure ArbiterConfig where
  enabled : Bool := true
  max_positions_per_symbol : ℕ := 1
  allow_merging : Bool := true
  max_merge_multiplier : ℚ := 3/2
  continuation_hours : List (ℤ × ℤ) := [(9, 30), (15, 30)]
  reversal_windows : List (ℤ × ℤ) := [(8, 30), (9, 30)]
deriving Repr

/-- The wall-clock observations a `process_signal` call makes: the current
time in seconds (for pending-signal ages and `opened_at`), the current hour
and minute (for the priority windows), and the id/timestamp a merged
signal's constructor would generate. -/
structure ArbClock where
  now : ℚ
  hour : ℤ := 12
  minute : ℤ := 0
  freshId : ℕ := 0
deriving Repr

/-- The arbiter's mutable state: open positions and pending signals (both
insertion-ordered maps, as Python dictionaries are) and the counters. The
risk manager's own `record_trade` bookkeeping is not modelled. -/
structure ArbiterState where
  openPositions : List (String × OpenPosition) := []
  pendingSignals : List (ℕ × ArbSignal) := []
  totalSignals : ℕ := 0
  acceptedSignals : ℕ := 0
  rejectedSignals : ℕ := 0
  mergedSignals : ℕ := 0
deriving DecidableEq, Repr

/-- `ExecutionArbiter.is_continuation_hours`. -/
def isContinuationHours (cfg : ArbiterConfig) (hour minute : ℤ) : Bool :=
  cfg.continuation_hours.any fun p =>
    hour > p.1 || (hour = p.1 && minute ≥ p.2)

/-- `ExecutionArbiter.is_reversal_window`. -/
def isReversalWindow (cfg : ArbiterConfig) (hour minute : ℤ) : Bool :=
  cfg.reversal_windows.any fun p =>
    |hour - p.1| = 0 && |minute - p.2| ≤ 30

/-- The per-call outcome labels, one per `return` site of the arbiter. -/
inductive ArbReason
  | riskValidationFailed (reason : ManagerReject)
  | positionAlreadyOpen
  | multiplePositionsUnsupported
  | signalAlreadyPending
  | conflictKeepFirst
  | conflictPendingPriority
  | acceptedAndExecuted
deriving DecidableEq, Repr

/-- The `execution_details` dictionary of `_execute_signal` (the echoed
signal dictionary and the wall-clock timestamp field are not repeated
here). -/
structure ExecDetails where
  position_size : ℤ
  risk_usd : ℚ
  risk_pct : ℚ
  r_multiples : List ℚ
deriving DecidableEq, Repr

/-- Result of one arbiter call: next state, the accepted flag, the reason,
and the execution details on acceptance. -/
abbrev ArbResult := ArbiterState × Bool × ArbReason × Option ExecDetails

/-- Insertion into an ascending-sorted list of prices. -/
def insertSorted (x : ℚ) : List ℚ → List ℚ
  | [] => [x]
  | y :: ys => if x ≤ y then x :: y :: ys else y :: insertSorted x ys

/-- Ascending sort (Python `sorted`), by insertion. -/
def sortAsc (l : List ℚ) : List ℚ :=
  l.foldr insertSorted []

/-- Insert-or-overwrite into an insertion-ordered association list, as
assignment into a Python dictionary behaves. -/
def assocSet (l : List (String × OpenPosition)) (k : String) (v : OpenPosition) :
    List (String × OpenPosition) :=
  if (l.lookup k).isSome then
    l.map fun p => if p.1 = k then (k, v) else p
  else l ++ [(k, v)]

/-- `ExecutionArbiter._get_pending_signal`: the first pending signal for
the instrument younger than 5 seconds. -/
def getPendingSignal (st : ArbiterState) (instrument : String) (now : ℚ) :
    Option ArbSignal :=
  (st.pendingSignals.find? fun p =>
    p.2.instrument = instrument && (now - p.2.timestamp) < 5).map (·.2)

/-- `ExecutionArbiter._execute_signal`, after the optional re-validation:
record the open position, add the signal to the pending map, bump the
counter and return the execution details. -/
def execCore (st : ArbiterState) (s : ArbSignal) (d : SizeDetails) (now : ℚ) :
    ArbResult :=
  let st1 : ArbiterState :=
    { st with
      openPositions := assocSet st.openPositions s.instrument
        ⟨s, d.position_size, now, d⟩
      pendingSignals := st.pendingSignals ++ [(s.signal_id, s)]
      acceptedSignals := st.acceptedSignals + 1 }
  (st1, true, .acceptedAndExecuted,
    some ⟨d.position_size, d.actual_risk_usd, d.actual_risk_pct, d.r_multiples⟩)

/-- `ExecutionArbiter._execute_signal`: re-validate with the risk manager
when no details were passed in. -/
def executeSignal (mcfg : ManagerConfig) (dailyLoss : ℚ) (st : ArbiterState)
    (s : ArbSignal) (riskDetails? : Option SizeDetails) (now : ℚ) : ArbResult :=
  match riskDetails? with
  | none =>
    match validateSignal mcfg dailyLoss s.toTradeSignal with
    | .rejected r _ =>
      ({ st with rejectedSignals := st.rejectedSignals + 1 }, false,
        .riskValidationFailed r, none)
    | .accepted d => execCore st s d now
  | some d => execCore st s d now

/-- `ExecutionArbiter._merge_signals`. `pending_size` is read from
`risk_details`, which at this call site are the risk details of the NEW
signal, and `merged_size` is computed and then never used, exactly as in
the source. Constructing the merged `TradeSignal` can raise `ValueError`,
which propagates out of the call. -/
def mergeSignals (acfg : ArbiterConfig) (mcfg : ManagerConfig) (dailyLoss : ℚ)
    (st : ArbiterState) (s pending : ArbSignal) (riskDetails : SizeDetails)
    (clk : ArbClock) : Except SignalError ArbResult :=
  let pendingSize := riskDetails.position_size
  let merged_size := truncQ ((pendingSize : ℚ) * acfg.max_merge_multiplier)
  let _ := merged_size
  let mergedEntry :=
    if s.direction = .BUY then min s.entry_price pending.entry_price
    else max s.entry_price pending.entry_price
  let mergedStop :=
    if s.direction = .BUY then max s.stop_price pending.stop_price
    else min s.stop_price pending.stop_price
  let allTps := sortAsc ((s.take_profit ++ pending.take_profit).foldl
    (fun acc x => if acc.contains x then acc else acc ++ [x]) [])
  let mergedSig : TradeSignal :=
    { strategy_id := s.strategy_id, instrument := s.instrument,
      direction := s.direction, entry_price := mergedEntry,
      stop_price := mergedStop, take_profit := allTps, max_loss_usd := 750 }
  match signalValidate mergedSig with
  | .error e => .error e
  | .ok _ =>
    let st1 : ArbiterState :=
      { st with
        mergedSignals := st.mergedSignals + 1,
        pendingSignals := st.pendingSignals.filter fun p => p.1 ≠ pending.signal_id }
    .ok (executeSignal mcfg dailyLoss st1
      ⟨mergedSig, clk.freshId, clk.now,
        String.append (String.append s.strategy_id "+") pending.strategy_id⟩
      (some riskDetails) clk.now)

/-- `ExecutionArbiter._resolve_conflict`: time-of-day priority for
opposite-direction signals. -/
def resolveConflict (acfg : ArbiterConfig) (mcfg : ManagerConfig)
    (dailyLoss : ℚ) (st : ArbiterState) (s pending : ArbSignal)
    (riskDetails : SizeDetails) (clk : ArbClock) : ArbResult :=
  let priority? : Option String :=
    if isContinuationHours acfg clk.hour clk.minute then some "AAFR"
    else if isReversalWindow acfg clk.hour clk.minute then some "AJR"
    else none
  match priority? with
  | none =>
    ({ st with rejectedSignals := st.rejectedSignals + 1 }, false,
      .conflictKeepFirst, none)
  | some priorityStrategy =>
    if s.strategy_id = priorityStrategy then
      let st1 : ArbiterState :=
        { st with pendingSignals :=
            st.pendingSignals.filter fun p => p.1 ≠ pending.signal_id }
      executeSignal mcfg dailyLoss st1 s (some riskDetails) clk.now
    else
      ({ st with rejectedSignals := st.rejectedSignals + 1 }, false,
        .conflictPendingPriority, none)

/-- `ExecutionArbiter.process_signal` / `_process_with_lock` /
`_handle_existing_position` / `_handle_pending_signal`: the full decision
chain for one arriving signal, holding the instrument lock. A `ValueError`
escaping the merge constructor is the `Except.error` case. -/
def processSignal (acfg : ArbiterConfig) (mcfg : ManagerConfig) (dailyLoss : ℚ)
    (st0 : ArbiterState) (s : ArbSignal) (clk : ArbClock) :
    Except SignalError ArbResult :=
  let st : ArbiterState := { st0 with totalSignals := st0.totalSignals + 1 }
  if acfg.enabled = false then
    .ok (executeSignal mcfg dailyLoss st s none clk.now)
  else
    match validateSignal mcfg dailyLoss s.toTradeSignal with
    | .rejected r _ =>
      .ok ({ st with rejectedSignals := st.rejectedSignals + 1 }, false,
        .riskValidationFailed r, none)
    | .accepted riskDetails =>
      match st.openPositions.lookup s.instrument with
      | some _ =>
        if acfg.max_positions_per_symbol = 1 then
          .ok ({ st with rejectedSignals := st.rejectedSignals + 1 }, false,
            .positionAlreadyOpen, none)
        else
          .ok ({ st with rejectedSignals := st.rejectedSignals + 1 }, false,
            .multiplePositionsUnsupported, none)
      | none =>
        match getPendingSignal st s.instrument clk.now with
        | some pending =>
          if s.direction = pending.direction then
            if acfg.allow_merging then
              mergeSignals acfg mcfg dailyLoss st s pending riskDetails clk
            else
              .ok ({ st with rejectedSignals := st.rejectedSignals + 1 }, false,
                .signalAlreadyPending, none)
          else
            .ok (resolveConflict acfg mcfg dailyLoss st s pending riskDetails clk)
        | none => .ok (executeSignal mcfg dailyLoss st s (some riskDetails) clk.now)

/-- `ExecutionArbiter.close_position`: drop the instrument from the
open-position map (the pending map is left untouched). -/
def closePosition (st : ArbiterState) (instrument : String) : ArbiterState :=
  { st with openPositions := st.openPositions.filter fun p => p.1 ≠ instrument }

/-! ### Risk engine (aafr/risk_engine.py) -/

/-- The configuration surface `RiskEngine` reads. -/
structure EngineConfig where
  account_size : ℚ
  max_risk_per_trade : ℚ
  daily_loss_limit : ℚ
  min_r_multiple : ℚ
  atr_multiplier : ℚ
  instruments : List (String × InstrumentSpec)
  max_daily_trades : ℕ := 20
deriving Repr

/-- `RiskEngine._load_event_dates`: the hardcoded restricted-event dates. -/
def eventDates : List String :=
  ["2025-01-31", "2025-02-07", "2025-02-13", "2025-03-07", "2025-03-12"]

/-- `RiskEngine.is_trading_restricted`: whether the given date (for its
`None` default the source substitutes `date.today()`, the wall clock) falls
on a restricted event. -/
def isTradingRestricted (checkDate : String) : Bool :=
  eventDates.contains checkDate

/-- `RiskEngine.calculate_position_size`: contracts from the configured
dollar risk per trade; `none` mirrors the `None` returns for an unknown
instrument or a zero-tick stop. -/
def enginePositionSize (cfg : EngineConfig) (entry stop : ℚ) (symbol : String) :
    Option ℤ :=
  match cfg.instruments.lookup symbol with
  | none => none
  | some specs =>
    let riskPercent := cfg.max_risk_per_trade
    let dollarRisk := cfg.account_size * (riskPercent / 100)
    let stopDistance := |entry - stop|
    let ticksRisk := stopDistance / specs.tick_size
    if ticksRisk = 0 then none
    else some (max 1 (truncQ (dollarRisk / (ticksRisk * specs.tick_value))))

/-- `RiskEngine.calculate_take_profit`. -/
def calculateTakeProfit (entry stop : ℚ) (dir : Dir) (rMultiple : ℚ) : ℚ :=
  let riskDistance := |entry - stop|
  let rewardDistance := riskDistance * rMultiple
  match dir with
  | .LONG => entry + rewardDistance
  | .SHORT => entry - rewardDistance

/-- The `trade_details` dictionary of a successful
`RiskEngine.validate_trade_setup`. -/
structure TradeDetails where
  entry : ℚ
  stop_loss : ℚ
  take_profit : ℚ
  r_multiple : ℚ
  position_size : ℤ
  dollar_risk : ℚ
  risk_percent : ℚ
  direction : Dir
  symbol : String
deriving DecidableEq, Repr

/-- The rejection reasons of `RiskEngine.validate_trade_setup`, one per
`return (False, ...)` site. -/
inductive SetupReject
  | restrictedEvent
  | dailyLossLimit
  | maxDailyTrades
  | zeroStopDistance
  | rMultipleTooLow
  | noPositionSize
  | zeroAccountSize
  | riskTooHigh
deriving DecidableEq, Repr

/-- `RiskEngine.validate_trade_setup`: the nine-step check chain. `today`
is the wall-clock date the source's `is_trading_restricted()` call reads;
`dailyPnl` and `dailyTrades` are the engine's daily counters. The
R-multiple is the hardcoded `3.0` of the source. The direct
`instrument_specs[symbol]` access after a successful sizing cannot fail,
so its arm re-uses the sizing rejection. -/
def validateTradeSetup (cfg : EngineConfig) (today : String) (dailyPnl : ℚ)
    (dailyTrades : ℕ) (entry stop : ℚ) (dir : Dir) (symbol : String) :
    Except SetupReject TradeDetails :=
  if isTradingRestricted today then .error .restrictedEvent
  else if dailyPnl ≤ -cfg.daily_loss_limit then .error .dailyLossLimit
  else if dailyTrades ≥ cfg.max_daily_trades then .error .maxDailyTrades
  else
    let riskDistance := |entry - stop|
    if riskDistance = 0 then .error .zeroStopDistance
    else
      let rMultiple : ℚ := 3
      if rMultiple < cfg.min_r_multiple then .error .rMultipleTooLow
      else
        match enginePositionSize cfg entry stop symbol with
        | none => .error .noPositionSize
        | some positionSize =>
          match cfg.instruments.lookup symbol with
          | none => .error .noPositionSize
          | some specs =>
            let stopDistanceTicks := |entry - stop| / specs.tick_size
            let dollarRisk := stopDistanceTicks * specs.tick_value * (positionSize : ℚ)
            if cfg.account_size = 0 then .error .zeroAccountSize
            else
              let riskPercent := dollarRisk / cfg.account_size * 100
              if riskPercent > cfg.max_risk_per_trade then .error .riskTooHigh
              else
                let takeProfit := calculateTakeProfit entry stop dir rMultiple
                .ok ⟨entry, stop, takeProfit, rMultiple, positionSize, dollarRisk,
                  riskPercent, dir, symbol⟩

/-! ### Backtest simulator (aafr/backtester.py) -/

/-- The `pnl` / `r_achieved` pair returned by
`Backtester._simulate_trade_outcome`. -/
structure TradeOutcome where
  pnl : ℚ
  r_achieved : ℚ
deriving DecidableEq, Repr

/-- The body of the forward scan of `_simulate_trade_outcome`, at absolute
candle index `i` with `fuel` candles left in the scan window. Within each
candle the stop conditions are checked before the take-profit conditions. -/
def simOutcomeGo (entry stop tp rMultiple : ℚ) (positionSize : ℤ) (dir : Dir)
    (candles : List Candle) : ℕ → ℕ → TradeOutcome
  | _, 0 => ⟨0, 0⟩
  | i, fuel + 1 =>
    let c := candles.getD i default
    if dir = .LONG ∧ c.low ≤ stop then
      ⟨-((entry - stop) * (positionSize : ℚ)), -1⟩
    else if dir = .SHORT ∧ c.high ≥ stop then
      ⟨-((stop - entry) * (positionSize : ℚ)), -1⟩
    else if dir = .LONG ∧ c.high ≥ tp then
      ⟨(tp - entry) * (positionSize : ℚ), rMultiple⟩
    else if dir = .SHORT ∧ c.low ≤ tp then
      ⟨(entry - tp) * (positionSize : ℚ), rMultiple⟩
    else simOutcomeGo entry stop tp rMultiple positionSize dir candles (i + 1) fuel

/-- `Backtester._simulate_trade_outcome`: scan forward from `start_idx` up
to 100 candles for a stop or take-profit touch; no touch scores zero. -/
def simulateTradeOutcome (entry stop tp rMultiple : ℚ) (positionSize : ℤ)
    (dir : Dir) (candles : List Candle) (startIdx : ℕ) : TradeOutcome :=
  if startIdx ≥ candles.length then ⟨0, 0⟩
  else simOutcomeGo entry stop tp rMultiple positionSize dir candles startIdx
    (min (startIdx + 100) candles.length - startIdx)

/-- One row of `self.trades`. The `status` string is `'win'` iff the pnl is
strictly positive; it is modelled by the boolean `status_win`. -/
structure TradeRecord where
  timestamp : ℤ
  time_index : ℕ
  symbol : String
  direction : Dir
  entry : ℚ
  stop_loss : ℚ
  take_profit : ℚ
  r_multiple : ℚ
  position_size : ℤ
  dollar_risk : ℚ
  risk_percent : ℚ
  result : ℚ
  r_achieved : ℚ
  status_win : Bool
deriving DecidableEq, Repr

/-- One point of `self.equity_curve`. -/
structure EquityPoint where
  timestamp : ℤ
  time : ℕ
  equity : ℚ
deriving DecidableEq, Repr

/-- The mutable fields of `Backtester` that `run_backtest` reads and
writes. `run_backtest` resets the equity, trades and curve but NOT the
running max-drawdown pair, so those two enter as part of the incoming
state. -/
structure BTState where
  trades : List TradeRecord
  equityCurve : List EquityPoint
  currentEquity : ℚ
  maxEquity : ℚ
  maxDrawdown : ℚ
  maxDrawdownPct : ℚ
deriving DecidableEq, Repr

/-- The guard chain of one iteration of the `run_backtest` loop: detect an
ICC structure on the history up to `i`, validate the full setup, compute
trade levels, require R ≥ 2.0, and validate with the risk engine; `none`
is a `continue`. The backtester never updates the engine's daily counters
inside the loop, so they stay at their reset values 0 and 0. -/
def btSetup (ecfg : EngineConfig) (today symbol : String) (candles : List Candle)
    (i : ℕ) : Option (ℚ × ℚ × ℚ × ℚ × TradeDetails × Dir) :=
  let history := candles.take (i + 1)
  match detectICCStructure history true with
  | none => none
  | some icc =>
    if icc.complete = false then none
    else if validateFullSetup (some icc) history (calcCVD history) = false then none
    else
      match calculateTradeLevels icc history with
      | (entry, stop, tp, rMultiple) =>
        if rMultiple < 2 then none
        else
          match validateTradeSetup ecfg today 0 0 entry stop
              icc.indication.direction symbol with
          | .error _ => none
          | .ok tradeDetails =>
            some (entry, stop, tp, rMultiple, tradeDetails, icc.indication.direction)

/-- The recording block of one iteration of the `run_backtest` loop:
simulate the outcome from the next candle on, append the trade record and
equity point (timestamps fall back to the wall clock `nowTs` when a candle
timestamp is not positive) and update equity, peak and drawdown. -/
def btStep (ecfg : EngineConfig) (today symbol : String) (nowTs : ℤ)
    (candles : List Candle) (st : BTState) (i : ℕ) : BTState :=
  match btSetup ecfg today symbol candles i with
  | none => st
  | some (entry, stop, tp, rMultiple, tradeDetails, dir) =>
    let outcome := simulateTradeOutcome entry stop tp tradeDetails.r_multiple
      tradeDetails.position_size dir candles (i + 1)
    let candleTs := (candles.getD i default).timestamp
    let tradeTs := if candleTs > 0 then candleTs else nowTs
    let record : TradeRecord :=
      ⟨tradeTs, i, symbol, dir, entry, stop, tp, rMultiple,
        tradeDetails.position_size, tradeDetails.dollar_risk,
        tradeDetails.risk_percent, outcome.pnl, outcome.r_achieved,
        outcome.pnl > 0⟩
    let newEquity := st.currentEquity + outcome.pnl
    let equityTs :=
      if i + 1 < candles.length then
        let nextTs := (candles.getD (i + 1) default).timestamp
        if nextTs > 0 then nextTs else tradeTs
      else tradeTs
    let newMaxEquity := if newEquity > st.maxEquity then newEquity else st.maxEquity
    let drawdown := newMaxEquity - newEquity
    let drawdownPct := drawdown / newMaxEquity * 100
    let newDD :=
      if drawdownPct > st.maxDrawdownPct then (drawdown, drawdownPct)
      else (st.maxDrawdown, st.maxDrawdownPct)
    { trades := st.trades ++ [record],
      equityCurve := st.equityCurve ++ [⟨equityTs, i, newEquity⟩],
      currentEquity := newEquity,
      maxEquity := newMaxEquity,
      maxDrawdown := newDD.1,
      maxDrawdownPct := newDD.2 }

/-- The metrics dictionary of `Backtester._calculate_metrics`. The
`sharpe_ratio` entry involves a real square root and no claim concerns it,
so it is the one entry not carried here; `equity_curve` is the state's
curve itself. -/
structure Metrics where
  total_trades : ℕ
  win_rate : ℚ
  avg_r : ℚ
  net_pnl : ℚ
  max_drawdown : ℚ
  max_drawdown_pct : ℚ
  longest_win_streak : ℕ
  longest_loss_streak : ℕ
  final_equity : ℚ
  wins : ℕ
  losses : ℕ
  profit_factor : ℚ
  avg_win : ℚ
  avg_loss : ℚ
  avg_win_r : ℚ
  avg_loss_r : ℚ
  gross_profit : ℚ
  gross_loss : ℚ
  min_equity : ℚ
  max_equity_summary : ℚ
deriving DecidableEq, Repr

/-- The win/loss streak fold of `_calculate_metrics`. -/
def streakFold (trades : List TradeRecord) : ℕ × ℕ :=
  let f := trades.foldl
    (fun (acc : ℕ × ℕ × ℕ × ℕ) t =>
      let (curWin, curLoss, maxWin, maxLoss) := acc
      if t.status_win then
        (curWin + 1, 0, max maxWin (curWin + 1), maxLoss)
      else
        (0, curLoss + 1, maxWin, max maxLoss (curLoss + 1)))
    (0, 0, 0, 0)
  (f.2.2.1, f.2.2.2)

/-- `Backtester._calculate_metrics`: the zero-trade branch returns the
neutral defaults with `final_equity` the (unchanged) current equity; the
general branch computes the aggregate statistics over the trade list. -/
def calculateMetrics (st : BTState) : Metrics :=
  match st.trades with
  | [] =>
    ⟨0, 0, 0, 0, 0, 0, 0, 0, st.currentEquity, 0, 0, 0, 0, 0, 0, 0, 0, 0,
      st.currentEquity, st.currentEquity⟩
  | _ =>
    let totalTrades := st.trades.length
    let winningTrades := st.trades.filter (·.status_win)
    let losingTrades := st.trades.filter (fun t => ¬ t.status_win)
    let winRate : ℚ := ((winningTrades.length : ℚ) / (totalTrades : ℚ)) * 100
    let avgR : ℚ := (st.trades.map (·.r_achieved)).foldl (· + ·) 0 / (totalTrades : ℚ)
    let netPnl : ℚ := (st.trades.map (·.result)).foldl (· + ·) 0
    let grossProfit : ℚ := (winningTrades.map (·.result)).foldl (· + ·) 0
    let grossLoss : ℚ := |(losingTrades.map (·.result)).foldl (· + ·) 0|
    let profitFactor :=
      if grossLoss > 0 then grossProfit / grossLoss
      else if grossProfit > 0 then grossProfit else 0
    let avgWin :=
      if winningTrades.length = 0 then 0
      else grossProfit / (winningTrades.length : ℚ)
    let avgLoss :=
      if losingTrades.length = 0 then 0
      else |(losingTrades.map (·.result)).foldl (· + ·) 0 / (losingTrades.length : ℚ)|
    let avgWinR :=
      if winningTrades.length = 0 then 0
      else (winningTrades.map (·.r_achieved)).foldl (· + ·) 0 / (winningTrades.length : ℚ)
    let avgLossR :=
      if losingTrades.length = 0 then 0
      else |(losingTrades.map (·.r_achieved)).foldl (· + ·) 0 / (losingTrades.length : ℚ)|
    let equityValues := st.equityCurve.map (·.equity)
    let minEquity := if equityValues = [] then st.currentEquity else listMinQ equityValues
    let maxEquitySummary := if equityValues = [] then st.currentEquity else listMaxQ equityValues
    let streaks := streakFold st.trades
    ⟨totalTrades, winRate, avgR, netPnl, st.maxDrawdown, st.maxDrawdownPct,
      streaks.1, streaks.2, st.currentEquity, winningTrades.length,
      losingTrades.length, profitFactor, avgWin, avgLoss, avgWinR, avgLossR,
      grossProfit, grossLoss, minEquity, maxEquitySummary⟩

/-- The state `Backtester.run_backtest` starts its loop from: no trades,
the equity curve seeded with the first candle's timestamp (wall clock when
the list is empty or the timestamp is not positive), equity and peak at
the start equity, and the instance's unreset drawdown pair. -/
def btInitState (candles : List Candle) (startEquity : ℚ) (nowTs : ℤ)
    (maxDD0 maxDDPct0 : ℚ) : BTState :=
  let firstTs : ℤ :=
    match candles.head? with
    | some c => if c.timestamp > 0 then c.timestamp else nowTs
    | none => nowTs
  ⟨[], [⟨firstTs, 0, startEquity⟩], startEquity, startEquity, maxDD0, maxDDPct0⟩

/-- The loop and terminal metrics of `Backtester.run_backtest`. -/
def runBacktest (ecfg : EngineConfig) (candles : List Candle) (symbol : String)
    (startEquity : ℚ) (today : String) (nowTs : ℤ)
    (maxDD0 : ℚ := 0) (maxDDPct0 : ℚ := 0) : BTState × Metrics :=
  let st0 := btInitState candles startEquity nowTs maxDD0 maxDDPct0
  let idxs := (List.range candles.length).drop 50
  let finalState := idxs.foldl (btStep ecfg today symbol nowTs candles) st0
  (finalState, calculateMetrics finalState)

/-! ## Theorems -/

/-- C6: for every trade signal, construction succeeds only if the stop is
strictly on the loss side of entry for the direction (BUY: stop < entry;
SELL: stop > entry), every take-profit is strictly on the profit side of
entry, and the take-profit list is non-empty. Violations fail validation
(the contrapositive of this implication) rather than being coerced:
`TradeSignal.__init__` calls `_validate`, which raises on the first
violated check. -/
theorem signal_construction_price_invariants (s : TradeSignal)
    (h : signalValidate s = .ok ()) :
    s.take_profit ≠ [] ∧
    (s.direction = .BUY → s.stop_price < s.entry_price ∧
      ∀ tp ∈ s.take_profit, s.entry_price < tp) ∧
    (s.direction = .SELL → s.entry_price < s.stop_price ∧
      ∀ tp ∈ s.take_profit, tp < s.entry_price) := by
  unfold signalValidate at h
  split_ifs at h with h1 h2 h3 h4 h5 h6 h7 h8 h9
  refine ⟨h7, fun hb => ⟨?_, ?_⟩, fun hs => ⟨?_, ?_⟩⟩
  · exact lt_of_not_ge fun hge => h5 ⟨hb, hge⟩
  · intro tp htp
    refine lt_of_not_ge fun hle => h8 ⟨hb, ?_⟩
    simp only [List.any_eq_true, decide_eq_true_eq]
    exact ⟨tp, htp, hle⟩
  · exact lt_of_not_ge fun hge => h6 ⟨hs, hge⟩
  · intro tp htp
    refine lt_of_not_ge fun hge => h9 ⟨hs, ?_⟩
    simp only [List.any_eq_true, decide_eq_true_eq]
    exact ⟨tp, htp, hge⟩

/-- A concrete valid signal used by the schema witnesses. -/
def schemaWitnessSignal : TradeSignal :=
  ⟨"AAFR", "NQ", .BUY, 20150, 20115, [20200, 20250], 750⟩

/-- Witness for the C6 theorem at a concrete constructible signal. -/
theorem signal_construction_price_invariants_witness :
    signalValidate schemaWitnessSignal = .ok () ∧
    (schemaWitnessSignal.take_profit ≠ [] ∧
    (schemaWitnessSignal.direction = .BUY →
      schemaWitnessSignal.stop_price < schemaWitnessSignal.entry_price ∧
      ∀ tp ∈ schemaWitnessSignal.take_profit, schemaWitnessSignal.entry_price < tp) ∧
    (schemaWitnessSignal.direction = .SELL →
      schemaWitnessSignal.entry_price < schemaWitnessSignal.stop_price ∧
      ∀ tp ∈ schemaWitnessSignal.take_profit, tp < schemaWitnessSignal.entry_price)) :=
  ⟨by decide, signal_construction_price_invariants schemaWitnessSignal (by decide)⟩

/-- C10: every successfully constructed `TradeSignal` has a positive stop
distance (entry strictly different from stop), so `calculate_risk_reward`
never takes its division-guard fallback branch — the returned list is
exactly the rounded ratios — and every R-multiple ratio it computes is
positive. -/
theorem valid_signal_r_multiples_well_defined (s : TradeSignal)
    (h : signalValidate s = .ok ()) :
    s.entry_price ≠ s.stop_price ∧
    0 < calculateStopDistance s ∧
    calculateRiskReward s = s.take_profit.map
      (fun tp => pyRound (|tp - s.entry_price| / calculateStopDistance s) 2) ∧
    ∀ tp ∈ s.take_profit, 0 < |tp - s.entry_price| / calculateStopDistance s := by
  obtain ⟨-, hbuy, hsell⟩ := signal_construction_price_invariants s h
  have hne : s.entry_price ≠ s.stop_price := by
    cases hdir : s.direction with
    | BUY => exact ((hbuy hdir).1.ne).symm
    | SELL => exact (hsell hdir).1.ne
  have hpos : 0 < calculateStopDistance s := by
    unfold calculateStopDistance
    exact abs_pos.mpr (sub_ne_zero.mpr hne)
  have htp : ∀ tp ∈ s.take_profit, 0 < |tp - s.entry_price| / calculateStopDistance s := by
    intro tp htp
    apply div_pos _ hpos
    apply abs_pos.mpr
    apply sub_ne_zero.mpr
    cases hdir : s.direction with
    | BUY => exact ((hbuy hdir).2 tp htp).ne.symm
    | SELL => exact ((hsell hdir).2 tp htp).ne
  refine ⟨hne, hpos, ?_, htp⟩
  unfold calculateRiskReward
  simp only [if_pos hpos]

/-- Witness for the C10 theorem at a concrete constructible signal. -/
theorem valid_signal_r_multiples_well_defined_witness :
    signalValidate schemaWitnessSignal = .ok () ∧
    (schemaWitnessSignal.entry_price ≠ schemaWitnessSignal.stop_price ∧
    0 < calculateStopDistance schemaWitnessSignal ∧
    calculateRiskReward schemaWitnessSignal = schemaWitnessSignal.take_profit.map
      (fun tp => pyRound (|tp - schemaWitnessSignal.entry_price| /
        calculateStopDistance schemaWitnessSignal) 2) ∧
    ∀ tp ∈ schemaWitnessSignal.take_profit,
      0 < |tp - schemaWitnessSignal.entry_price| /
        calculateStopDistance schemaWitnessSignal) :=
  ⟨by decide, valid_signal_r_multiples_well_defined schemaWitnessSignal (by decide)⟩

/-- C7: when the accumulated daily realized loss has reached the daily loss
limit exactly (or beyond), the next signal whose instrument passes the
whitelist/configuration check is rejected by `validate_signal` with the
daily-limit reason; the comparison in the source is `>=`, so exact equality
already rejects. -/
theorem daily_loss_limit_rejects_next_signal (cfg : ManagerConfig)
    (dailyLoss : ℚ) (s : TradeSignal)
    (hinstr : validateInstrument cfg s.instrument = .ok)
    (hloss : dailyLoss ≥ cfg.daily_loss_limit) :
    validateSignal cfg dailyLoss s = .rejected .dailyLossLimit none := by
  unfold validateSignal
  rw [hinstr]
  simp only [if_pos hloss]

/-- A manager configuration shared by the risk-manager witnesses. -/
def witnessManagerConfig : ManagerConfig :=
  ⟨150000, 750, 1500, [("NQ", ⟨1/4, 5⟩)]⟩

/-- Witness for the C7 theorem: daily loss exactly at the 1500 limit. -/
theorem daily_loss_limit_rejects_next_signal_witness :
    validateInstrument witnessManagerConfig schemaWitnessSignal.instrument = .ok ∧
    (1500 : ℚ) ≥ witnessManagerConfig.daily_loss_limit ∧
    validateSignal witnessManagerConfig 1500 schemaWitnessSignal =
      .rejected .dailyLossLimit none :=
  ⟨by decide, by decide,
    daily_loss_limit_rejects_next_signal witnessManagerConfig 1500
      schemaWitnessSignal (by decide) (by decide)⟩

/-- C3 counterexample input: a BUY signal whose worst take-profit has
R-multiple 0.5 (below the 1.5 minimum) but whose best has 3.0. -/
def worstRSignal : TradeSignal :=
  ⟨"AAFR", "NQ", .BUY, 20000, 19990, [20005, 20030], 750⟩

/-- C3 is false as stated: this signal passes the whitelist, daily-limit,
stop-distance and risk-cap checks, its worst (lowest) take-profit
R-multiple 0.5 is below the minimum 1.5, yet `validate_signal` accepts it —
the source gates on `max(r_multiples)`, not on the worst. -/
theorem worst_r_multiple_claim_counterexample :
    listMinQ (calculateRiskReward worstRSignal) = 1/2 ∧
    (1/2 : ℚ) < 3/2 ∧
    validateSignal witnessManagerConfig 0 worstRSignal =
      .accepted ⟨10, 40, 200, 3, 600, 2/5, [1/2, 3]⟩ := by
  refine ⟨by decide, by decide, by decide⟩

/-- C3 amended: a risk-valid signal is rejected with the R-multiple reason
exactly when its best (highest) take-profit R-multiple — `max(r_multiples)`
in the source — is below the minimum 1.5, i.e. when every take-profit's
R-multiple is too low. -/
theorem r_multiple_gate_uses_best (cfg : ManagerConfig) (dailyLoss : ℚ)
    (s : TradeSignal) (pos : ℤ) (d : SizeDetails)
    (hinstr : validateInstrument cfg s.instrument = .ok)
    (hloss : ¬ dailyLoss ≥ cfg.daily_loss_limit)
    (hsize : calculatePositionSize cfg s = (pos, some d))
    (hpos : ¬ pos ≤ 0)
    (hrisk : ¬ d.actual_risk_usd > cfg.max_risk_usd * (11/10))
    (hne : d.r_multiples ≠ [])
    (hmax : listMaxQ d.r_multiples < 3/2) :
    validateSignal cfg dailyLoss s = .rejected .rMultipleTooLow (some d) := by
  unfold validateSignal
  rw [hinstr, if_neg hloss, hsize]
  simp only [if_neg hpos, if_neg hrisk, if_pos (And.intro hne hmax)]

/-- Witness for the amended C3 theorem: a signal whose only take-profit
has R-multiple 0.5 is rejected with the R-multiple reason. -/
theorem r_multiple_gate_uses_best_witness :
    validateInstrument witnessManagerConfig "NQ" = .ok ∧
    calculatePositionSize witnessManagerConfig
      ⟨"AAFR", "NQ", .BUY, 20000, 19990, [20005], 750⟩ =
      (3, some ⟨10, 40, 200, 3, 600, 2/5, [1/2]⟩) ∧
    validateSignal witnessManagerConfig 0
      ⟨"AAFR", "NQ", .BUY, 20000, 19990, [20005], 750⟩ =
      .rejected .rMultipleTooLow (some ⟨10, 40, 200, 3, 600, 2/5, [1/2]⟩) :=
  ⟨by decide, by decide,
    r_multiple_gate_uses_best witnessManagerConfig 0
      ⟨"AAFR", "NQ", .BUY, 20000, 19990, [20005], 750⟩ 3
      ⟨10, 40, 200, 3, 600, 2/5, [1/2]⟩
      (by decide) (by decide) (by decide) (by decide) (by decide) (by decide)
      (by decide)⟩

/-- Clamping at 1 erases the difference between Python's `int()`
truncation and the floor: for a negative quotient both sides clamp to 1. -/
theorem max_one_truncQ (q : ℚ) : max 1 (truncQ q) = max 1 ⌊q⌋ := by
  unfold truncQ
  split_ifs with h
  · have h1 : ⌊q⌋ ≤ 0 := Int.floor_nonpos h.le
    have h2 : -⌊-q⌋ ≤ 0 := by
      have : (0 : ℤ) ≤ ⌊-q⌋ := Int.le_floor.mpr (by exact_mod_cast (neg_nonneg.mpr h.le))
      omega
    rw [max_eq_left (by omega), max_eq_left (by omega)]
  · rfl

/-- C5 amended, first half as claimed: with a configured instrument, a
positive tick count and a positive tick value, the returned position size
is `max 1 ⌊max_loss_usd / (stop_distance_ticks × tick_value)⌋` — an integer
at least 1. Second half corrected: the reported `actual_risk_usd` is the
product `position_size × stop_distance_ticks × tick_value` rounded to two
decimal places, not that product exactly. -/
theorem position_size_and_reported_risk (cfg : ManagerConfig) (s : TradeSignal)
    (specs : InstrumentSpec)
    (hspec : cfg.instruments.lookup s.instrument = some specs)
    (hticks : 0 < |s.entry_price - s.stop_price| / specs.tick_size)
    (hvalue : 0 < specs.tick_value) :
    (calculatePositionSize cfg s).1 =
      max 1 ⌊s.max_loss_usd /
        ((|s.entry_price - s.stop_price| / specs.tick_size) * specs.tick_value)⌋ ∧
    1 ≤ (calculatePositionSize cfg s).1 ∧
    ((calculatePositionSize cfg s).2.map (·.actual_risk_usd)) =
      some (pyRound (((calculatePositionSize cfg s).1 : ℚ) *
        ((|s.entry_price - s.stop_price| / specs.tick_size) * specs.tick_value)) 2) := by
  have hdollar : 0 <
      (|s.entry_price - s.stop_price| / specs.tick_size) * specs.tick_value :=
    mul_pos hticks hvalue
  unfold calculatePositionSize
  rw [hspec]
  simp only [if_neg (not_le.mpr hdollar)]
  refine ⟨max_one_truncQ _, le_max_left _ _, rfl⟩

/-- C5 counterexample input: NQ-style quarter ticks with a 0.10 tick value
and a 0.2575-point stop distance give 1.03 ticks, hence a dollar risk per
contract of 0.103; the 7281-contract product 749.943 is reported rounded
as 749.94. -/
def roundingConfig : ManagerConfig :=
  ⟨150000, 750, 1500, [("NQ", ⟨1/4, 1/10⟩)]⟩

/-- C5 counterexample signal. -/
def roundingSignal : TradeSignal :=
  ⟨"AAFR", "NQ", .BUY, 1002575/10000, 100, [101], 750⟩

/-- C5 is false in its exactness part: at this input the position size is
7281 and `position_size × stop_distance_ticks × tick_value = 749.943`
exactly, but the details dictionary reports `round(749.943, 2) = 749.94`. -/
theorem reported_risk_not_exact_counterexample :
    (calculatePositionSize roundingConfig roundingSignal).1 = 7281 ∧
    ((calculatePositionSize roundingConfig roundingSignal).2.map
      (·.actual_risk_usd)) = some (74994/100) ∧
    (7281 : ℚ) * ((|roundingSignal.entry_price - roundingSignal.stop_price| /
      (1/4)) * (1/10)) = 749943/1000 ∧
    (74994/100 : ℚ) ≠ 749943/1000 := by
  refine ⟨by decide, by decide, by decide, by decide⟩

/-- Witness for the amended C5 theorem at the counterexample input. -/
theorem position_size_and_reported_risk_witness :
    roundingConfig.instruments.lookup roundingSignal.instrument =
      some ⟨1/4, 1/10⟩ ∧
    (0 : ℚ) < |roundingSignal.entry_price - roundingSignal.stop_price| / (1/4) ∧
    ((calculatePositionSize roundingConfig roundingSignal).1 =
      max 1 ⌊roundingSignal.max_loss_usd /
        ((|roundingSignal.entry_price - roundingSignal.stop_price| / (1/4)) * (1/10))⌋ ∧
    1 ≤ (calculatePositionSize roundingConfig roundingSignal).1 ∧
    ((calculatePositionSize roundingConfig roundingSignal).2.map (·.actual_risk_usd)) =
      some (pyRound (((calculatePositionSize roundingConfig roundingSignal).1 : ℚ) *
        ((|roundingSignal.entry_price - roundingSignal.stop_price| / (1/4)) * (1/10))) 2)) :=
  ⟨by decide, by decide,
    position_size_and_reported_risk roundingConfig roundingSignal ⟨1/4, 1/10⟩
      (by decide) (by decide) (by decide)⟩

/-- Once the correction scan has fixed a start `s0`, any returned pair
keeps that start, and the end lies at or after the current index. -/
theorem corrScan_some_bounds (p q : ℕ → Bool) :
    ∀ fuel i s0 s e, corrScan p q i fuel (some s0) = some (s, e) → s = s0 ∧ i ≤ e := by
  intro fuel
  induction fuel with
  | zero => intro i s0 s e h; simp [corrScan] at h
  | succ n ih =>
    intro i s0 s e h
    simp only [corrScan] at h
    by_cases hq : q i
    · rw [if_pos hq] at h
      simp only [Option.some.injEq, Prod.mk.injEq] at h
      exact ⟨h.1.symm, h.2.le⟩
    · rw [if_neg hq] at h
      have := ih (i + 1) s0 s e h
      exact ⟨this.1, le_trans (Nat.le_succ i) this.2⟩

/-- A correction scan started with no start yet returns a start at or
after the current index and an end strictly after the start. -/
theorem corrScan_none_bounds (p q : ℕ → Bool) :
    ∀ fuel i s e, corrScan p q i fuel none = some (s, e) → i ≤ s ∧ s < e := by
  intro fuel
  induction fuel with
  | zero => intro i s e h; simp [corrScan] at h
  | succ n ih =>
    intro i s e h
    simp only [corrScan] at h
    by_cases hp : p i
    · rw [if_pos hp] at h
      obtain ⟨h1, h2⟩ := corrScan_some_bounds p q n (i + 1) i s e h
      subst h1
      exact ⟨le_refl s, lt_of_lt_of_le (Nat.lt_succ_self s) h2⟩
    · rw [if_neg hp] at h
      have := ih (i + 1) s e h
      exact ⟨le_trans (Nat.le_succ i) this.1, this.2⟩

/-- A detected correction starts strictly after the indication index and
ends strictly after it starts. -/
theorem detectCorrection_bounds (candles : List Candle) (cvd : List ℤ)
    (indIdx : ℕ) (corr : Correction)
    (h : detectCorrection candles cvd indIdx = some corr) :
    indIdx < corr.start_idx ∧ corr.start_idx < corr.end_idx := by
  unfold detectCorrection at h
  split_ifs at h
  simp only [] at h
  split at h
  · exact Option.noConfusion h
  · rename_i pr heq
    split_ifs at h
    obtain ⟨h1, h2⟩ := corrScan_none_bounds _ _ _ _ _ _ heq
    cases h
    exact ⟨h1, h2⟩

/-- A detected continuation sits exactly at the correction end index that
was passed in (`continuation_idx = correction_end_idx` in the source). -/
theorem detectContinuation_idx (candles : List Candle) (cvd : List ℤ)
    (e indIdx : ℕ) (cont : Continuation)
    (h : detectContinuation candles cvd e indIdx = some cont) :
    cont.idx = e := by
  unfold detectContinuation at h
  simp only [] at h
  split_ifs at h
  all_goals injection h with h2
  all_goals rw [← h2]

/-- C1 amended: for every complete ICC phase structure returned by the
detector, indication.index < correction.start_index ≤ correction.end_index
= continuation.index. The claimed strict inequality
`correction.end_index < continuation.index` is false: the source sets the
continuation index equal to the correction end index. -/
theorem icc_complete_phase_index_order (candles : List Candle) (req : Bool)
    (s : ICCStructure) (h : detectICCStructure candles req = some s)
    (hc : s.complete = true) :
    ∃ corr cont, s.correction = some corr ∧ s.continuation = some cont ∧
      s.indication.idx < corr.start_idx ∧ corr.start_idx ≤ corr.end_idx ∧
      corr.end_idx = cont.idx := by
  by_cases hlen : candles.length < 20
  · rw [detectICCStructure, if_pos hlen] at h
    exact Option.noConfusion h
  · rw [detectICCStructure, if_neg hlen] at h
    simp only [] at h
    rcases hind : detectIndication candles (calcCVD candles) with _ | ind <;> rw [hind] at h
    · exact Option.noConfusion h
    simp only [] at h
    rcases hcorr : detectCorrection candles (calcCVD candles) ind.idx with _ | corr <;>
      rw [hcorr] at h
    · by_cases hreq : req = true
      · rw [if_pos hreq] at h
        exact Option.noConfusion h
      · rw [if_neg hreq] at h
        injection h with h2
        rw [← h2] at hc
        exact Bool.noConfusion hc
    simp only [] at h
    rcases hcont : detectContinuation candles (calcCVD candles) corr.end_idx ind.idx
        with _ | cont <;> rw [hcont] at h
    · by_cases hreq : req = true
      · rw [if_pos hreq] at h
        exact Option.noConfusion h
      · rw [if_neg hreq] at h
        injection h with h2
        rw [← h2] at hc
        exact Bool.noConfusion hc
    · injection h with h2
      obtain ⟨hb1, hb2⟩ := detectCorrection_bounds candles (calcCVD candles) ind.idx corr hcorr
      have hci := detectContinuation_idx candles (calcCVD candles) corr.end_idx ind.idx cont hcont
      rw [← h2]
      exact ⟨corr, cont, rfl, rfl, hb1, hb2.le, hci.symm⟩

/-- Flat filler candle for the concrete ICC detection runs. -/
def iccDoji100 : Candle := ⟨0, 100, 101, 99, 100, 100⟩
/-- Flat filler candle at the post-pattern price level. -/
def iccDoji116 : Candle := ⟨0, 116, 117, 115, 116, 100⟩
/-- Twenty candles: ten dojis, a bullish displacement candle at index 10,
a bearish pullback at 11, a bullish resumption at 12, then dojis. The
detector finds a complete LONG structure with correction (11, 12) and
continuation index 12. -/
def iccCandles : List Candle :=
  [iccDoji100, iccDoji100, iccDoji100, iccDoji100, iccDoji100,
   iccDoji100, iccDoji100, iccDoji100, iccDoji100, iccDoji100,
   ⟨0, 100, 120, 100, 120, 1000⟩,
   ⟨0, 120, 120, 112, 112, 100⟩,
   ⟨0, 112, 116, 112, 116, 100⟩,
   iccDoji116, iccDoji116, iccDoji116, iccDoji116, iccDoji116,
   iccDoji116, iccDoji116]
/-- The complete structure the detector returns on `iccCandles`. -/
def iccResultS : ICCStructure := ⟨⟨10, .LONG⟩, some ⟨11, 12⟩, some ⟨12⟩, true⟩


/-- C1 is false as stated: on `iccCandles` the detector returns a complete
structure whose continuation index 12 equals the correction end index 12,
so `correction.end_index < continuation.index` fails. -/
theorem icc_end_equals_continuation_counterexample :
    detectICCStructure iccCandles true = some iccResultS ∧
    iccResultS.correction = some ⟨11, 12⟩ ∧
    iccResultS.continuation = some ⟨12⟩ ∧
    iccResultS.complete = true ∧
    ¬ (12 : ℕ) < 12 :=
  ⟨by decide, by decide, by decide, by decide, by decide⟩

/-- Witness for the amended C1 theorem at the concrete candle list. -/
theorem icc_complete_phase_index_order_witness :
    detectICCStructure iccCandles true = some iccResultS ∧
    iccResultS.complete = true ∧
    (∃ corr cont, iccResultS.correction = some corr ∧
      iccResultS.continuation = some cont ∧
      iccResultS.indication.idx < corr.start_idx ∧
      corr.start_idx ≤ corr.end_idx ∧ corr.end_idx = cont.idx) :=
  ⟨by decide, by decide,
    icc_complete_phase_index_order iccCandles true iccResultS (by decide) (by decide)⟩

/-- The stop-touch condition of `_simulate_trade_outcome` for one candle:
for LONG `low <= stop`, for SHORT `high >= stop`. -/
def touchesStop (dir : Dir) (stop : ℚ) (c : Candle) : Bool :=
  match dir with
  | .LONG => decide (c.low ≤ stop)
  | .SHORT => decide (c.high ≥ stop)

/-- The take-profit-touch condition of `_simulate_trade_outcome` for one
candle: for LONG `high >= tp`, for SHORT `low <= tp`. -/
def touchesTarget (dir : Dir) (tp : ℚ) (c : Candle) : Bool :=
  match dir with
  | .LONG => decide (c.high ≥ tp)
  | .SHORT => decide (c.low ≤ tp)

/-- The full-loss outcome `_simulate_trade_outcome` returns on a stop hit:
the whole position loses the stop distance, scored at -1R. -/
def stopLossOutcome (dir : Dir) (entry stop : ℚ) (positionSize : ℤ) : TradeOutcome :=
  match dir with
  | .LONG => ⟨-((entry - stop) * (positionSize : ℚ)), -1⟩
  | .SHORT => ⟨-((stop - entry) * (positionSize : ℚ)), -1⟩

/-- Scan lemma: if no candle before `k` in the scan window touches stop or
target and candle `k` touches the stop, the scan returns the stop-loss
outcome - regardless of whether candle `k` also touches the target,
because the stop conditions are evaluated first. -/
theorem simOutcomeGo_stop_first (entry stop tp r : ℚ) (size : ℤ) (dir : Dir)
    (candles : List Candle) (k : ℕ) :
    ∀ fuel i, i ≤ k → k < i + fuel →
    (∀ j, i ≤ j → j < k → touchesStop dir stop (candles.getD j default) = false ∧
      touchesTarget dir tp (candles.getD j default) = false) →
    touchesStop dir stop (candles.getD k default) = true →
    simOutcomeGo entry stop tp r size dir candles i fuel =
      stopLossOutcome dir entry stop size := by
  intro fuel
  induction fuel with
  | zero => intro i h1 h2; omega
  | succ n ih =>
    intro i h1 h2 hbefore hk
    simp only [simOutcomeGo]
    by_cases hik : i = k
    · subst hik
      cases dir with
      | LONG =>
        have hprop : (candles.getD i default).low ≤ stop :=
          of_decide_eq_true hk
        rw [if_pos ⟨rfl, hprop⟩]
        rfl
      | SHORT =>
        have hprop : (candles.getD i default).high ≥ stop :=
          of_decide_eq_true hk
        rw [if_neg (fun hh => Dir.noConfusion hh.1), if_pos ⟨rfl, hprop⟩]
        rfl
    · have hlt : i < k := lt_of_le_of_ne h1 hik
      obtain ⟨hs, ht⟩ := hbefore i (le_refl i) hlt
      have htail : ∀ j, i + 1 ≤ j → j < k →
          touchesStop dir stop (candles.getD j default) = false ∧
          touchesTarget dir tp (candles.getD j default) = false :=
        fun j hj1 hj2 => hbefore j (by omega) hj2
      cases dir with
      | LONG =>
        have hsp : ¬ (candles.getD i default).low ≤ stop := of_decide_eq_false hs
        have htp : ¬ (candles.getD i default).high ≥ tp := of_decide_eq_false ht
        rw [if_neg (fun hh => hsp hh.2), if_neg (fun hh => Dir.noConfusion hh.1),
          if_neg (fun hh => htp hh.2), if_neg (fun hh => Dir.noConfusion hh.1)]
        exact ih (i + 1) (by omega) (by omega) htail hk
      | SHORT =>
        have hsp : ¬ (candles.getD i default).high ≥ stop := of_decide_eq_false hs
        have htp : ¬ (candles.getD i default).low ≤ tp := of_decide_eq_false ht
        rw [if_neg (fun hh => Dir.noConfusion hh.1), if_neg (fun hh => hsp hh.2),
          if_neg (fun hh => Dir.noConfusion hh.1), if_neg (fun hh => htp hh.2)]
        exact ih (i + 1) (by omega) (by omega) htail hk

/-- C9: within each forward candle the simulator evaluates the stop
condition before the take-profit condition, so a trade whose stop and
target are both touched by the first decisive candle's high-low range is
scored as a full loss at -1R, never as a win. -/
theorem simulate_stop_checked_before_target (entry stop tp r : ℚ) (size : ℤ)
    (dir : Dir) (candles : List Candle) (startIdx k : ℕ)
    (h1 : startIdx ≤ k) (h2 : k < min (startIdx + 100) candles.length)
    (hbefore : ∀ j, startIdx ≤ j → j < k →
      touchesStop dir stop (candles.getD j default) = false ∧
      touchesTarget dir tp (candles.getD j default) = false)
    (hkstop : touchesStop dir stop (candles.getD k default) = true)
    (hktp : touchesTarget dir tp (candles.getD k default) = true) :
    simulateTradeOutcome entry stop tp r size dir candles startIdx =
      stopLossOutcome dir entry stop size ∧
    (stopLossOutcome dir entry stop size).r_achieved = -1 := by
  have hlen : ¬ startIdx ≥ candles.length := by omega
  constructor
  · rw [simulateTradeOutcome, if_neg hlen]
    exact simOutcomeGo_stop_first entry stop tp r size dir candles k _ startIdx h1
      (by omega) hbefore hkstop
  · cases dir <;> rfl

/-- Witness for the C9 theorem: a LONG trade whose first forward candle
spans both the stop 90 and the target 110 is scored as a -20 loss at -1R
for 2 contracts. -/
theorem simulate_stop_checked_before_target_witness :
    touchesStop Dir.LONG 90 (Candle.mk 1 100 120 80 100 0) = true ∧
    touchesTarget Dir.LONG 110 (Candle.mk 1 100 120 80 100 0) = true ∧
    simulateTradeOutcome 100 90 110 3 2 Dir.LONG [⟨1, 100, 120, 80, 100, 0⟩] 0 =
      stopLossOutcome Dir.LONG 100 90 2 ∧
    (stopLossOutcome Dir.LONG 100 90 2).r_achieved = -1 :=
  ⟨by decide, by decide,
    (simulate_stop_checked_before_target 100 90 110 3 2 Dir.LONG
      [⟨1, 100, 120, 80, 100, 0⟩] 0 0 (by decide) (by decide)
      (fun j hj1 hj2 => absurd hj2 (Nat.not_lt_zero j))
      (by decide) (by decide)).1,
    (simulate_stop_checked_before_target 100 90 110 3 2 Dir.LONG
      [⟨1, 100, 120, 80, 100, 0⟩] 0 0 (by decide) (by decide)
      (fun j hj1 hj2 => absurd hj2 (Nat.not_lt_zero j))
      (by decide) (by decide)).2⟩

/-- First arbiter scenario signal: AAFR BUY on NQ, 60 ticks of stop
distance, risk-sized to 2 contracts, pending from time 0. -/
def mergeFirstSignal : ArbSignal :=
  ⟨⟨"AAFR", "NQ", .BUY, 20000, 19985, [20040], 750⟩, 1, 0, ""⟩

/-- Second arbiter scenario signal: AJR BUY on NQ, also sized 2 contracts,
arriving one second later (inside the 5-second pending window). -/
def mergeSecondSignal : ArbSignal :=
  ⟨⟨"AJR", "NQ", .BUY, 20002, 19987, [20042], 750⟩, 2, 1, ""⟩

/-- Arbiter state after the first signal is accepted at time 0. -/
def mergeStateAfterFirst : ArbiterState :=
  match processSignal {} witnessManagerConfig 0 {} mergeFirstSignal ⟨0, 12, 0, 0⟩ with
  | .ok r => r.1
  | .error _ => {}

/-- The arbiter call that takes the merge path: the first signal's position
was closed (which leaves its pending entry alive), and the same-direction
second signal arrives at time 1, within the 5-second window, with merging
enabled. -/
def mergeResult : Except SignalError ArbResult :=
  processSignal {} witnessManagerConfig 0
    (closePosition mergeStateAfterFirst "NQ") mergeSecondSignal ⟨1, 12, 0, 99⟩

/-- C2 evaluated at the failing input: both signals risk-size to 2
contracts, the merge path is taken (merged counter reaches 1) and the
merged signal is accepted — but the recorded position size, in the
execution details and in the open-position map, is 2, the second signal's
own sized size, not `floor(2 × 1.5) = 3`: the source computes
`merged_size` and never uses it, and it computes it from the new signal's
risk details besides. -/
theorem merge_records_second_signal_size :
    validateSignal witnessManagerConfig 0 mergeFirstSignal.toTradeSignal =
      .accepted ⟨15, 60, 300, 2, 600, 2/5, [267/100]⟩ ∧
    validateSignal witnessManagerConfig 0 mergeSecondSignal.toTradeSignal =
      .accepted ⟨15, 60, 300, 2, 600, 2/5, [267/100]⟩ ∧
    mergeResult.map (fun r => (r.2.1, r.2.2.1)) = .ok (true, .acceptedAndExecuted) ∧
    mergeResult.map (fun r => r.1.mergedSignals) = .ok 1 ∧
    mergeResult.map (fun r => r.2.2.2.map (·.position_size)) = .ok (some 2) ∧
    mergeResult.map (fun r =>
      (r.1.openPositions.lookup "NQ").map (·.position_size)) = .ok (some 2) ∧
    truncQ ((2 : ℚ) * (3/2)) = 3 ∧
    (2 : ℤ) ≠ 3 :=
  ⟨by decide, by decide, by decide, by decide, by decide, by decide,
    by decide, by decide⟩

/-- A loop iteration that leaves the trade list empty changed nothing: the
only state-modifying branch appends a trade record. -/
theorem btStep_eq_of_trades_nil (ecfg : EngineConfig) (today symbol : String)
    (nowTs : ℤ) (candles : List Candle) (st : BTState) (i : ℕ)
    (h : (btStep ecfg today symbol nowTs candles st i).trades = []) :
    btStep ecfg today symbol nowTs candles st i = st := by
  unfold btStep at h ⊢
  cases hsetup : btSetup ecfg today symbol candles i with
  | none => rfl
  | some v =>
    rw [hsetup] at h
    obtain ⟨entry, stop, tp, rM, td, dir⟩ := v
    simp only [List.append_eq_nil] at h
    exact absurd h.2 (by simp)

/-- A whole loop run that ends with an empty trade list is the identity on
the state. -/
theorem btFold_eq_of_trades_nil (ecfg : EngineConfig) (today symbol : String)
    (nowTs : ℤ) (candles : List Candle) :
    ∀ (l : List ℕ) (st : BTState),
      ((l.foldl (btStep ecfg today symbol nowTs candles) st).trades = []) →
      l.foldl (btStep ecfg today symbol nowTs candles) st = st := by
  intro l
  induction l with
  | nil => intro st _; rfl
  | cons a l ih =>
    intro st h
    simp only [List.foldl_cons] at h ⊢
    have h1 := ih (btStep ecfg today symbol nowTs candles st a) h
    rw [h1] at h ⊢
    exact btStep_eq_of_trades_nil ecfg today symbol nowTs candles st a h

/-- C8: a backtest run that produces zero trades reports
`total_trades = 0`, `win_rate = 0.0` and `final_equity` equal to the
starting equity. The embedding is total, so no input - the empty candle
list included - raises. -/
theorem backtest_zero_trades_defaults (ecfg : EngineConfig)
    (candles : List Candle) (symbol : String) (startEquity : ℚ)
    (today : String) (nowTs : ℤ) (maxDD0 maxDDPct0 : ℚ)
    (h : (runBacktest ecfg candles symbol startEquity today nowTs
      maxDD0 maxDDPct0).1.trades = []) :
    (runBacktest ecfg candles symbol startEquity today nowTs
      maxDD0 maxDDPct0).2.total_trades = 0 ∧
    (runBacktest ecfg candles symbol startEquity today nowTs
      maxDD0 maxDDPct0).2.win_rate = 0 ∧
    (runBacktest ecfg candles symbol startEquity today nowTs
      maxDD0 maxDDPct0).2.final_equity = startEquity := by
  have hfst : (runBacktest ecfg candles symbol startEquity today nowTs
      maxDD0 maxDDPct0).1 =
      ((List.range candles.length).drop 50).foldl
        (btStep ecfg today symbol nowTs candles)
        (btInitState candles startEquity nowTs maxDD0 maxDDPct0) := rfl
  have hsnd : (runBacktest ecfg candles symbol startEquity today nowTs
      maxDD0 maxDDPct0).2 =
      calculateMetrics (runBacktest ecfg candles symbol startEquity today nowTs
        maxDD0 maxDDPct0).1 := rfl
  rw [hfst] at h
  have hinit := btFold_eq_of_trades_nil ecfg today symbol nowTs candles _ _ h
  rw [hsnd, hfst, hinit]
  have htr : (btInitState candles startEquity nowTs maxDD0 maxDDPct0).trades = [] := rfl
  unfold calculateMetrics
  rw [htr]
  exact ⟨rfl, rfl, rfl⟩

/-- Fold congruence: two folds over the same list agree when the step
functions agree on every list element. -/
theorem foldl_congr_of_mem {α β : Type} (l : List α) (f g : β → α → β)
    (h : ∀ b a, a ∈ l → f b a = g b a) : ∀ s, l.foldl f s = l.foldl g s := by
  induction l with
  | nil => intro s; rfl
  | cons a l ih =>
    intro s
    simp only [List.foldl_cons]
    rw [h s a (List.mem_cons_self a l)]
    exact ih (fun b x hx => h b x (List.mem_cons_of_mem a hx)) (g s a)

/-- The guard chain of the backtest loop reads the wall-clock date only
through `is_trading_restricted`. -/
theorem btSetup_today_congr (ecfg : EngineConfig) (d1 d2 symbol : String)
    (candles : List Candle) (i : ℕ)
    (hres : isTradingRestricted d1 = isTradingRestricted d2) :
    btSetup ecfg d1 symbol candles i = btSetup ecfg d2 symbol candles i := by
  have hv : ∀ dailyPnl dailyTrades entry stop dir sym,
      validateTradeSetup ecfg d1 dailyPnl dailyTrades entry stop dir sym =
      validateTradeSetup ecfg d2 dailyPnl dailyTrades entry stop dir sym := by
    intro dailyPnl dailyTrades entry stop dir sym
    unfold validateTradeSetup
    rw [hres]
  unfold btSetup
  simp only [hv]

/-- A loop iteration is independent of the clock observations when the
restriction status matches and the candle timestamps are positive (the
`datetime.now()` fallbacks are then dead branches). -/
theorem btStep_clock_congr (ecfg : EngineConfig) (d1 d2 symbol : String)
    (n1 n2 : ℤ) (candles : List Candle) (st : BTState) (i : ℕ)
    (hres : isTradingRestricted d1 = isTradingRestricted d2)
    (hts : ∀ c ∈ candles, c.timestamp > 0) (hi : i < candles.length) :
    btStep ecfg d1 symbol n1 candles st i = btStep ecfg d2 symbol n2 candles st i := by
  unfold btStep
  rw [btSetup_today_congr ecfg d1 d2 symbol candles i hres]
  cases hsetup : btSetup ecfg d2 symbol candles i with
  | none => rfl
  | some v =>
    obtain ⟨entry, stop, tp, rM, td, dir⟩ := v
    have hc : (candles.getD i default).timestamp > 0 := by
      have hmem : candles.getD i default ∈ candles := by
        rw [List.getD_eq_getElem candles default hi]
        exact List.getElem_mem hi
      exact hts _ hmem
    simp only [if_pos hc]

/-- C4 amended: two runs over the same non-empty candle array (with
positive timestamps) and configuration produce identical trade records and
equity curves provided both runs observe the same restricted-event status
- in particular whenever they run on the same calendar date. Identity for
arbitrary clock readings is false: the loop consults `date.today()` via
`is_trading_restricted`. -/
theorem backtest_wall_clock_independence (ecfg : EngineConfig)
    (candles : List Candle) (symbol : String) (startEquity : ℚ)
    (d1 d2 : String) (n1 n2 : ℤ) (maxDD0 maxDDPct0 : ℚ)
    (hres : isTradingRestricted d1 = isTradingRestricted d2)
    (hts : ∀ c ∈ candles, c.timestamp > 0)
    (hne : candles ≠ []) :
    (runBacktest ecfg candles symbol startEquity d1 n1 maxDD0 maxDDPct0).1.trades =
      (runBacktest ecfg candles symbol startEquity d2 n2 maxDD0 maxDDPct0).1.trades ∧
    (runBacktest ecfg candles symbol startEquity d1 n1 maxDD0 maxDDPct0).1.equityCurve =
      (runBacktest ecfg candles symbol startEquity d2 n2 maxDD0 maxDDPct0).1.equityCurve := by
  have hinit : btInitState candles startEquity n1 maxDD0 maxDDPct0 =
      btInitState candles startEquity n2 maxDD0 maxDDPct0 := by
    unfold btInitState
    cases hh : candles.head? with
    | none => exact absurd (List.head?_eq_none_iff.mp hh) hne
    | some c =>
      have hcm : c ∈ candles := List.mem_of_mem_head? hh
      simp only [if_pos (hts c hcm)]
  have hstates : (runBacktest ecfg candles symbol startEquity d1 n1 maxDD0 maxDDPct0).1 =
      (runBacktest ecfg candles symbol startEquity d2 n2 maxDD0 maxDDPct0).1 := by
    show ((List.range candles.length).drop 50).foldl
        (btStep ecfg d1 symbol n1 candles)
        (btInitState candles startEquity n1 maxDD0 maxDDPct0) =
      ((List.range candles.length).drop 50).foldl
        (btStep ecfg d2 symbol n2 candles)
        (btInitState candles startEquity n2 maxDD0 maxDDPct0)
    rw [hinit]
    apply foldl_congr_of_mem
    intro b a ha
    have halen : a < candles.length :=
      List.mem_range.mp (List.mem_of_mem_drop ha)
    exact btStep_clock_congr ecfg d1 d2 symbol n1 n2 candles b a hres hts halen
  exact ⟨by rw [hstates], by rw [hstates]⟩

/-- Flat filler candle with timestamp for the backtest runs. -/
def btDoji (ts : ℤ) (p : ℚ) : Candle := ⟨ts, p, p + 1, p - 1, p, 100⟩

/-- Fifty-six candles: 51 dojis, then the displacement / pullback /
resumption pattern of `iccCandles` at indices 51-53, then dojis; the loop
detects a complete structure at indices 54 and 55 and records two trades.
-/
def btCandles : List Candle :=
  ((List.range 51).map (fun i => btDoji ((i : ℤ) + 1) 100)) ++
  [⟨52, 100, 120, 100, 120, 1000⟩,
   ⟨53, 120, 120, 112, 112, 100⟩,
   ⟨54, 112, 116, 112, 116, 100⟩,
   btDoji 55 116, btDoji 56 116]

/-- Engine configuration for the concrete backtest runs. -/
def btEngineConfig : EngineConfig := ⟨150000, 1/2, 1500, 2, 3/2, [("NQ", ⟨1, 1⟩)], 20⟩

set_option maxRecDepth 4000 in
/-- C4 is false as stated: the same candle array and configuration produce
two trades when the run's wall-clock date is 2025-02-08 but zero trades
when it is 2025-02-07, a hardcoded restricted-event date — the replay
consults `date.today()` through the risk engine. -/
theorem backtest_wall_clock_counterexample :
    isTradingRestricted "2025-02-07" = true ∧
    (runBacktest btEngineConfig btCandles "NQ" 100000 "2025-02-07" 0).1.trades = [] ∧
    isTradingRestricted "2025-02-08" = false ∧
    (runBacktest btEngineConfig btCandles "NQ" 100000 "2025-02-08" 0).1.trades.length = 2 :=
  ⟨by decide, by decide, by decide, by decide⟩

set_option maxRecDepth 4000 in
/-- Witness for the amended C4 theorem: two unrestricted dates and distinct
`now` readings give identical trade lists and equity curves on the
concrete candle array. -/
theorem backtest_wall_clock_independence_witness :
    isTradingRestricted "2025-02-08" = isTradingRestricted "2025-02-10" ∧
    (∀ c ∈ btCandles, c.timestamp > 0) ∧
    btCandles ≠ [] ∧
    ((runBacktest btEngineConfig btCandles "NQ" 100000 "2025-02-08" 0).1.trades =
      (runBacktest btEngineConfig btCandles "NQ" 100000 "2025-02-10" 5).1.trades ∧
    (runBacktest btEngineConfig btCandles "NQ" 100000 "2025-02-08" 0).1.equityCurve =
      (runBacktest btEngineConfig btCandles "NQ" 100000 "2025-02-10" 5).1.equityCurve) :=
  ⟨by decide, by decide, by decide,
    backtest_wall_clock_independence btEngineConfig btCandles "NQ" 100000
      "2025-02-08" "2025-02-10" 0 5 0 0 (by decide) (by decide) (by decide)⟩

/-- Witness for the C8 theorem at the empty candle list: no exception, zero
trades, zero win rate, final equity equals the 5000 start equity. -/
theorem backtest_zero_trades_defaults_witness :
    (runBacktest btEngineConfig [] "NQ" 5000 "2025-02-08" 7).1.trades = [] ∧
    ((runBacktest btEngineConfig [] "NQ" 5000 "2025-02-08" 7).2.total_trades = 0 ∧
    (runBacktest btEngineConfig [] "NQ" 5000 "2025-02-08" 7).2.win_rate = 0 ∧
    (runBacktest btEngineConfig [] "NQ" 5000 "2025-02-08" 7).2.final_equity = 5000) :=
  ⟨by decide,
    backtest_zero_trades_defaults btEngineConfig [] "NQ" 5000 "2025-02-08" 7 0 0
      (by decide)⟩
